import Mathlib

set_option autoImplicit false
set_option maxRecDepth 4096

/-
Shallow embedding of the CPU PagedAttention node
(src/src/plugins/intel_cpu/src/nodes/paged_attn.cpp).

Pure functions of the source are translated directly; framework machinery
that is not part of the repository under src/ (the PlainTensor view, the
PagedAttentionExecutor port enum, the params cache, the error taxonomy) is
modelled from the spec, each such definition carrying a doc comment that
starts with "Modelled from the spec:".
-/

namespace PagedAttn

/-- Element types of `ov::element::Type` that this node can meet. -/
inductive ElementType where
  | u8
  | i8
  | i32
  | i64
  | f16
  | bf16
  | f32
  | f64
  deriving DecidableEq

/-- Modelled from the spec: the error kinds of section 7.  The source throws
through `OPENVINO_THROW` / `OPENVINO_ASSERT`; the spec classifies those
failures as `ConfigurationError` (wrong input count, unsupported operation
type, detected at construction), `ShapeError` (dimension mismatch, detected
at execute time) and `PrecisionError` (no execution path for the requested
precision). -/
inductive PAError where
  | configurationError (msg : String)
  | shapeError (msg : String)
  | precisionError (msg : String)
  deriving DecidableEq

/-- Modelled from the spec: the dimension comparison performed by
`PlainTensor::assert_dims(expect_dims, special_zero)` (section 4.1: fails
with `ShapeError` if any non-wildcard dimension mismatches; when
`special_zero` is set, an expected entry equal to 0 is a wildcard accepting
any actual extent).  The rank must agree and every expected entry must equal
the actual one or be a wildcard. -/
def dimsMatch (special_zero : Bool) : List Nat → List Nat → Bool
  | [], [] => true
  | e :: es, a :: rest =>
      ((e == a) || (special_zero && (e == 0))) && dimsMatch special_zero es rest
  | _, _ => false

/-- Modelled from the spec: the Tensor View of section 4.1
(`utils/plain_tensor.hpp`, outside src/), at shape level: an element type
`m_dt` and the extent of every axis `m_dims`, mirroring the fields the node
reads.  The underlying buffer is irrelevant to the claims. -/
structure PlainTensor where
  m_dt : ElementType
  m_dims : List Nat
  deriving DecidableEq

/-- `PlainTensor::size(i)`: the extent of axis `i`. -/
def PlainTensor.size (t : PlainTensor) (i : Nat) : Nat :=
  t.m_dims.getD i 0

/-- `PlainTensor::assert_dims(expect_dims, special_zero)` as a check: `true`
exactly when the source call would not throw. -/
def PlainTensor.assert_dims (t : PlainTensor) (expect_dims : List Nat)
    (special_zero : Bool) : Bool :=
  dimsMatch special_zero expect_dims t.m_dims

/-- `PlainTensor::reshape`: same buffer, new dimensions (the element-count
precondition is established by the preceding `assert_dims` at the single call
site in this node). -/
def PlainTensor.reshape (t : PlainTensor) (newDims : List Nat) : PlainTensor :=
  PlainTensor.mk t.m_dt newDims

/-- `PlainTensor::permute`: reorder the logical axes without moving data. -/
def PlainTensor.permute (t : PlainTensor) (order : List Nat) : PlainTensor :=
  PlainTensor.mk t.m_dt (order.map (fun i => t.m_dims.getD i 0))

/-- Modelled from the spec: the input port indices
`PagedAttentionExecutor::ID_*` (the enum lives in
`kernels/scaled_attn/executor_pa_common.hpp`, which is not under src/); the
table of section 6 lists the positional roles in order. -/
def ID_Q : Nat := 0

def ID_K : Nat := 1

def ID_V : Nat := 2

def ID_KCACHE : Nat := 3

def ID_VCACHE : Nat := 4

def ID_IS_PROMPT : Nat := 5

def ID_SLOT_MAPPING : Nat := 6

def ID_MAX_CONTEXT_LEN : Nat := 7

def ID_CONTEXT_LENS : Nat := 8

def ID_BLOCK_TABLES : Nat := 9

def ID_SCALE : Nat := 10

def ID_ALIBI_SLOPES : Nat := 11

def ID_SLIDING_WINDOW : Nat := 12

def ID_SUBSEQUENCE_LENS : Nat := 13

/-- The data `PagedAttention::isSupportedOperation` reads from the operation
node: `op->get_type_name()` and `op->get_input_size()`. -/
structure OpInfo where
  typeName : String
  inputSize : Nat
  deriving DecidableEq

/-- `PagedAttention::isSupportedOperation` (lines 161-171).  The source
returns `true` when the type name is `PagedAttentionExtension` and the input
count is `ID_SLIDING_WINDOW + 1`, and then falls through to a final
`return true` in every other (non-throwing) case; `errorMessage` is never
assigned. -/
def isSupportedOperation (op : OpInfo) : Bool :=
  if op.typeName = "PagedAttentionExtension" ∧ op.inputSize = ID_SLIDING_WINDOW + 1 then
    true
  else
    true

/-- The `PagedAttention` constructor (lines 57-63): throws when
`isSupportedOperation` reports `false`. -/
def PagedAttention_construct (op : OpInfo) : Except PAError Unit :=
  if isSupportedOperation op = true then
    Except.ok ()
  else
    Except.error (PAError.configurationError "CPU: unsupported operation")

/-- The input-count assertion of
`PagedAttention::initSupportedPrimitiveDescriptors` (line 82):
`OPENVINO_ASSERT(orgInputNumber == 13 || orgInputNumber == 14, ...)`.
The remaining body only builds memory descriptors for the negotiated ports,
framework glue the spec excludes. -/
def initSupportedPrimitiveDescriptors (orgInputNumber : Nat) : Except PAError Unit :=
  if orgInputNumber = 13 ∨ orgInputNumber = 14 then
    Except.ok ()
  else
    Except.error (PAError.configurationError
      "The input number of PagedAttention should be 13 or 14.")

/-- Node setup before any execution: the constructor runs first, then
descriptor initialization with `getOriginalInputsNumber()` inputs. -/
def nodeSetup (op : OpInfo) : Except PAError Unit :=
  match PagedAttention_construct op with
  | Except.error e => Except.error e
  | Except.ok _ => initSupportedPrimitiveDescriptors op.inputSize

/-- `PagedAttention::getRuntimePrecision` (lines 203-212): the input
precision at port 0, kept at `bf16` only when the platform reports
`ov::with_cpu_x86_bfloat16()`, and otherwise forced to `f32`. -/
def getRuntimePrecision (inputPrecision0 : ElementType)
    (with_cpu_x86_bfloat16 : Bool) : ElementType :=
  if inputPrecision0 = ElementType.bf16 ∧ with_cpu_x86_bfloat16 = true then
    ElementType.bf16
  else
    ElementType.f32

/-- The five tensors `PagedAttention::gatherConcatPastkvForPagedAttn` resets
from its input vector: `inputs[ID_K]`, `inputs[ID_V]`, `inputs[ID_KCACHE]`,
`inputs[ID_VCACHE]`, `inputs[ID_SLOT_MAPPING]` (lines 176-180). -/
structure GatherInputs where
  k : PlainTensor
  v : PlainTensor
  k_cache : PlainTensor
  v_cache : PlainTensor
  slot_mapping : PlainTensor
  deriving DecidableEq

/-- The two cache-population writers the node can invoke
(`kernels/scaled_attn`, outside src/): the quantized writer and the plain
copy writer, represented by which one the population step calls. -/
inductive CacheWriter where
  | paged_attn_quantkv
  | paged_attn_memcpy
  deriving DecidableEq

/-- Local `B` of `gatherConcatPastkvForPagedAttn` (line 182): `k.size(0)`. -/
def gatherB (inp : GatherInputs) : Nat := inp.k.size 0

/-- Local `L1` (line 183): `k.size(1)`. -/
def gatherL1 (inp : GatherInputs) : Nat := inp.k.size 1

/-- Local `H` (line 184): `k_cache.size(1)`. -/
def gatherH (inp : GatherInputs) : Nat := inp.k_cache.size 1

/-- Local `S` (line 185): `v_cache.size(3)` minus 8 when the K-cache element
type is `u8`. -/
def gatherS (inp : GatherInputs) : Nat :=
  inp.v_cache.size 3 - (if inp.k_cache.m_dt = ElementType.u8 then 8 else 0)

/-- `PagedAttention::gatherConcatPastkvForPagedAttn` (lines 173-201).  Each
`assert_dims` of the source throws on mismatch, modelled as a `ShapeError`
result naming the offending tensor; the order of the checks is the order of
the source.  On success the result records which writer is invoked
(`paged_attn_quantkv` for a `u8` K-cache, `paged_attn_memcpy` otherwise) and
the dimensions of the reshaped-and-permuted new-K view handed to it (the
new-V tensor receives the identical reshape and permute).  An error result
means the source throws before either writer touches the caches. -/
def gatherConcatPastkvForPagedAttn (inp : GatherInputs) :
    Except PAError (CacheWriter × List Nat) :=
  if inp.k.assert_dims [gatherB inp, gatherL1 inp, gatherH inp * gatherS inp] false = true then
    if inp.v.assert_dims [gatherB inp, gatherL1 inp, gatherH inp * gatherS inp] false = true then
      if inp.slot_mapping.assert_dims [gatherB inp, 0] true = true then
        if inp.k_cache.m_dt = ElementType.u8 then
          if inp.k_cache.assert_dims [0, gatherH inp, 0, gatherS inp + 8] true = true then
            if inp.v_cache.assert_dims
                [inp.k_cache.size 0, gatherH inp, inp.k_cache.size 2, gatherS inp + 8]
                false = true then
              Except.ok (CacheWriter.paged_attn_quantkv,
                ((inp.k.reshape [gatherB inp, gatherL1 inp, gatherH inp, gatherS inp]).permute
                  [0, 2, 1, 3]).m_dims)
            else Except.error (PAError.shapeError "v_cache")
          else Except.error (PAError.shapeError "k_cache")
        else
          if inp.k_cache.assert_dims [0, gatherH inp, 0, gatherS inp] true = true then
            if inp.v_cache.assert_dims
                [inp.k_cache.size 0, gatherH inp, inp.k_cache.size 2, gatherS inp]
                false = true then
              Except.ok (CacheWriter.paged_attn_memcpy,
                ((inp.k.reshape [gatherB inp, gatherL1 inp, gatherH inp, gatherS inp]).permute
                  [0, 2, 1, 3]).m_dims)
            else Except.error (PAError.shapeError "v_cache")
          else Except.error (PAError.shapeError "k_cache")
      else Except.error (PAError.shapeError "slot_mapping")
    else Except.error (PAError.shapeError "v")
  else Except.error (PAError.shapeError "k")

/-- Modelled from the spec: a paged-attention executor instance, reduced to
its read-only configuration (section 5: instance state, if any, is limited to
read-only configuration), namely the two precisions `make_pa_executor` was
called with. -/
structure PagedAttentionExecutor where
  rtPrecision : ElementType
  kvCachePrecision : ElementType
  deriving DecidableEq

/-- `PagedAttentionKey` (lines 37-42): the cache key holds only the runtime
precision. -/
structure PagedAttentionKey where
  rtPrecision : ElementType
  deriving DecidableEq

/-- Modelled from the spec: the hash code of an `ov::element::Type` (the
element-type class is a framework collaborator outside src/); an injective
code per type stands in for `rtPrecision.hash()`. -/
def ElementType.hash : ElementType → Nat
  | ElementType.u8 => 0
  | ElementType.i8 => 1
  | ElementType.i32 => 2
  | ElementType.i64 => 3
  | ElementType.f16 => 4
  | ElementType.bf16 => 5
  | ElementType.f32 => 6
  | ElementType.f64 => 7

/-- Modelled from the spec: `hash_combine` of the hashing utilities (outside
src/), folding a value into a 64-bit seed. -/
def hash_combine (seed v : Nat) : Nat :=
  (seed ^^^ ((v + 2654435769 + seed * 64 + seed / 4) % (2 ^ 64))) % (2 ^ 64)

/-- `PagedAttentionKey::hash` (lines 44-49): `hash_combine(0, rtPrecision.hash())`. -/
def PagedAttentionKey.hash (k : PagedAttentionKey) : Nat :=
  hash_combine 0 (ElementType.hash k.rtPrecision)

/-- `PagedAttentionKey::operator==` (lines 51-55): precision equality. -/
def PagedAttentionKey.eq (a rhs : PagedAttentionKey) : Bool :=
  a.rtPrecision == rhs.rtPrecision

/-- Modelled from the spec: the params cache behind
`context->getParamsCache()`, an explicit map from keys to shared executor
instances (section 9). -/
abbrev ParamsCache := List (PagedAttentionKey × PagedAttentionExecutor)

/-- Modelled from the spec: `getOrCreate` returns the instance already
cached under an equal key, and otherwise runs the builder once, caching a
successful result; a null builder result is reported as `none` (section 9:
lazily constructed, shared, read-only instances keyed by the precision
struct). -/
def getOrCreate (cache : ParamsCache) (key : PagedAttentionKey)
    (builder : PagedAttentionKey → Option PagedAttentionExecutor) :
    ParamsCache × Option PagedAttentionExecutor :=
  match List.find? (fun q => PagedAttentionKey.eq q.1 key) cache with
  | some q => (cache, some q.2)
  | none =>
      match builder key with
      | some e => ((key, e) :: cache, some e)
      | none => (cache, none)

/-- `PagedAttention::createPrimitive` (lines 125-146): build the key from the
runtime precision, ask the params cache, with a builder that calls
`make_pa_executor(rtPrecision, kvCachePrecision)` on x86-64 and returns null
elsewhere; a null result throws, otherwise the instance is stored in
`m_executor` (the `ok` payload). -/
def createPrimitive (cache : ParamsCache)
    (inputPrecision0 kvCachePrecision : ElementType)
    (with_cpu_x86_bfloat16 openvino_arch_x86_64 : Bool)
    (make_pa_executor : ElementType → ElementType → Option PagedAttentionExecutor) :
    ParamsCache × Except PAError PagedAttentionExecutor :=
  match getOrCreate cache
      (PagedAttentionKey.mk (getRuntimePrecision inputPrecision0 with_cpu_x86_bfloat16))
      (fun _ =>
        if openvino_arch_x86_64 = true then
          make_pa_executor (getRuntimePrecision inputPrecision0 with_cpu_x86_bfloat16)
            kvCachePrecision
        else none) with
  | (cache2, some e) => (cache2, Except.ok e)
  | (cache2, none) =>
      (cache2, Except.error (PAError.precisionError
        "PagedAttention AttentionExecutor creation fails"))

/-! ### Helper lemmas about the embedding -/

/-- Without wildcards, `dimsMatch` is exactly list equality. -/
lemma dimsMatch_false_iff : ∀ (e a : List Nat), dimsMatch false e a = true ↔ e = a
  | [], [] => by simp [dimsMatch]
  | [], _ :: _ => by simp [dimsMatch]
  | _ :: _, [] => by simp [dimsMatch]
  | e :: es, a :: rest => by
      simp [dimsMatch, dimsMatch_false_iff es rest]

/-- What a successful rank-4 wildcard check guarantees: the actual tensor has
rank 4 and every expected entry is a wildcard or the actual extent. -/
lemma dimsMatch_wild4 (e0 e1 e2 e3 : Nat) (dims : List Nat)
    (h : dimsMatch true [e0, e1, e2, e3] dims = true) :
    ∃ a b c d, dims = [a, b, c, d] ∧ (e0 = a ∨ e0 = 0) ∧ (e1 = b ∨ e1 = 0) ∧
      (e2 = c ∨ e2 = 0) ∧ (e3 = d ∨ e3 = 0) := by
  match dims with
  | [] => simp [dimsMatch] at h
  | [_] => simp [dimsMatch] at h
  | [_, _] => simp [dimsMatch] at h
  | [_, _, _] => simp [dimsMatch] at h
  | a :: b :: c :: d :: rest =>
      cases rest with
      | nil =>
          simp [dimsMatch, Bool.or_eq_true, Bool.and_eq_true, beq_iff_eq] at h
          exact ⟨a, b, c, d, rfl, by tauto⟩
      | cons x xs => simp [dimsMatch] at h

/-- The cache-population step either reaches a writer or reports a
`ShapeError`; no other outcome exists. -/
lemma gather_total (inp : GatherInputs) :
    (∃ r, gatherConcatPastkvForPagedAttn inp = Except.ok r) ∨
    (∃ m, gatherConcatPastkvForPagedAttn inp = Except.error (PAError.shapeError m)) := by
  unfold gatherConcatPastkvForPagedAttn
  repeat' split
  all_goals first
    | exact Or.inl ⟨_, rfl⟩
    | exact Or.inr ⟨_, rfl⟩

/-- Everything a successful cache-population call establishes: the shapes of
the new K/V tensors, the writer choice with the reshaped view, the wildcard
check on the K-cache and the exact check on the V-cache. -/
lemma gather_ok_elim (inp : GatherInputs) (r : CacheWriter × List Nat)
    (h : gatherConcatPastkvForPagedAttn inp = Except.ok r) :
    inp.k.m_dims = [gatherB inp, gatherL1 inp, gatherH inp * gatherS inp] ∧
    inp.v.m_dims = [gatherB inp, gatherL1 inp, gatherH inp * gatherS inp] ∧
    r = ((if inp.k_cache.m_dt = ElementType.u8 then CacheWriter.paged_attn_quantkv
          else CacheWriter.paged_attn_memcpy),
         [gatherB inp, gatherH inp, gatherL1 inp, gatherS inp]) ∧
    dimsMatch true
      [0, gatherH inp, 0,
        gatherS inp + (if inp.k_cache.m_dt = ElementType.u8 then 8 else 0)]
      inp.k_cache.m_dims = true ∧
    inp.v_cache.m_dims =
      [inp.k_cache.size 0, gatherH inp, inp.k_cache.size 2,
        gatherS inp + (if inp.k_cache.m_dt = ElementType.u8 then 8 else 0)] := by
  unfold gatherConcatPastkvForPagedAttn at h
  split at h
  case isFalse => exact Except.noConfusion h
  case isTrue h1 =>
  split at h
  case isFalse => exact Except.noConfusion h
  case isTrue h2 =>
  split at h
  case isFalse => exact Except.noConfusion h
  case isTrue h3 =>
  split at h
  case isTrue hu8 =>
    split at h
    case isFalse => exact Except.noConfusion h
    case isTrue h4 =>
    split at h
    case isFalse => exact Except.noConfusion h
    case isTrue h5 =>
    injection h with hr
    subst hr
    refine ⟨((dimsMatch_false_iff _ _).mp h1).symm, ((dimsMatch_false_iff _ _).mp h2).symm,
      ?_, ?_, ?_⟩
    · rw [if_pos hu8]
      rfl
    · rw [if_pos hu8]
      exact h4
    · rw [if_pos hu8]
      exact ((dimsMatch_false_iff _ _).mp h5).symm
  case isFalse hu8 =>
    split at h
    case isFalse => exact Except.noConfusion h
    case isTrue h4 =>
    split at h
    case isFalse => exact Except.noConfusion h
    case isTrue h5 =>
    injection h with hr
    subst hr
    refine ⟨((dimsMatch_false_iff _ _).mp h1).symm, ((dimsMatch_false_iff _ _).mp h2).symm,
      ?_, ?_, ?_⟩
    · rw [if_neg hu8]
      rfl
    · rw [if_neg hu8, Nat.add_zero]
      exact h4
    · rw [if_neg hu8, Nat.add_zero]
      exact ((dimsMatch_false_iff _ _).mp h5).symm

/-- `isSupportedOperation` returns `true` for every (non-throwing) operation:
both branches of its `if` return `true` and `errorMessage` is never set. -/
lemma isSupportedOperation_true (op : OpInfo) : isSupportedOperation op = true := by
  unfold isSupportedOperation
  split <;> rfl

/-! ### Claim theorems -/

/-- C1: the claim says that for an operation node with exactly 12 inputs,
`isSupportedOperation` reports the operation as unsupported (returns `false`
or sets an error).  The code does the opposite: for a
`PagedAttentionExtension` node with 12 inputs the guard
`orgInput == ID_SLIDING_WINDOW + 1` is false, control falls through to the
final `return true`, and no error message is ever assigned, so the function
reports the operation as supported. -/
theorem isSupportedOperation_accepts_twelve_inputs :
    isSupportedOperation (OpInfo.mk "PagedAttentionExtension" 12) = true := by
  decide

/-- C2: node setup (the constructor followed by
`initSupportedPrimitiveDescriptors`) succeeds exactly for input counts 13 and
14, and every other count fails with a `ConfigurationError` before any
execution is performed. -/
theorem nodeSetup_input_count (op : OpInfo) :
    (nodeSetup op = Except.ok () ↔ (op.inputSize = 13 ∨ op.inputSize = 14)) ∧
    ((op.inputSize ≠ 13 ∧ op.inputSize ≠ 14) →
      ∃ m, nodeSetup op = Except.error (PAError.configurationError m)) := by
  have hc : PagedAttention_construct op = Except.ok () := by
    unfold PagedAttention_construct
    rw [if_pos (isSupportedOperation_true op)]
  have hns : nodeSetup op = initSupportedPrimitiveDescriptors op.inputSize := by
    unfold nodeSetup
    rw [hc]
  constructor
  · rw [hns]
    unfold initSupportedPrimitiveDescriptors
    split
    case isTrue hcond => exact iff_of_true rfl hcond
    case isFalse hcond => exact iff_of_false (by simp) hcond
  · intro hne
    rw [hns]
    unfold initSupportedPrimitiveDescriptors
    rw [if_neg (by tauto)]
    exact ⟨_, rfl⟩

/-- Witness for C2: a 13-input node sets up, a 12-input node fails with a
`ConfigurationError`. -/
theorem nodeSetup_input_count_witness :
    nodeSetup (OpInfo.mk "PagedAttentionExtension" 13) = Except.ok () ∧
    (∃ m, nodeSetup (OpInfo.mk "PagedAttentionExtension" 12) =
      Except.error (PAError.configurationError m)) :=
  ⟨(nodeSetup_input_count (OpInfo.mk "PagedAttentionExtension" 13)).1.mpr (Or.inl rfl),
   (nodeSetup_input_count (OpInfo.mk "PagedAttentionExtension" 12)).2 (by decide)⟩

/-- C4: the runtime precision is `bf16` exactly when the input precision at
port 0 is `bf16` and the platform natively supports `bf16`; in every other
case it is `f32`. -/
theorem getRuntimePrecision_bf16_iff (p : ElementType) (hw : Bool) :
    (getRuntimePrecision p hw = ElementType.bf16 ↔
      (p = ElementType.bf16 ∧ hw = true)) ∧
    ((p = ElementType.bf16 ∧ hw = true) ∨ getRuntimePrecision p hw = ElementType.f32) := by
  unfold getRuntimePrecision
  split
  case isTrue hc => exact ⟨iff_of_true rfl hc, Or.inl hc⟩
  case isFalse hc => exact ⟨iff_of_false (by decide) hc, Or.inr rfl⟩

/-- Witness for C4: a `bf16` input on supporting hardware keeps `bf16`. -/
theorem getRuntimePrecision_bf16_iff_witness :
    getRuntimePrecision ElementType.bf16 true = ElementType.bf16 :=
  (getRuntimePrecision_bf16_iff ElementType.bf16 true).1.mpr ⟨rfl, rfl⟩

/-- C10: the runtime precision is always `bf16` or `f32`, and every input
precision other than `bf16` (for example `f16`) silently becomes `f32`. -/
theorem getRuntimePrecision_range (p : ElementType) (hw : Bool) :
    (getRuntimePrecision p hw = ElementType.bf16 ∨
      getRuntimePrecision p hw = ElementType.f32) ∧
    (p ≠ ElementType.bf16 → getRuntimePrecision p hw = ElementType.f32) := by
  unfold getRuntimePrecision
  split
  case isTrue hc => exact ⟨Or.inl rfl, fun hne => absurd hc.1 hne⟩
  case isFalse hc => exact ⟨Or.inr rfl, fun _ => rfl⟩

/-- Witness for C10: an `f16` input is not preserved but becomes `f32`. -/
theorem getRuntimePrecision_range_witness :
    getRuntimePrecision ElementType.f16 false = ElementType.f32 :=
  (getRuntimePrecision_range ElementType.f16 false).2 (by decide)

/-- C3: in every cache-population call that reaches a writer, the writer is
selected solely by the declared element type of the K-cache tensor, decided
once for the whole call: `u8` selects `paged_attn_quantkv`, every other type
selects `paged_attn_memcpy`.  The selection is a single top-level branch of
`gatherConcatPastkvForPagedAttn`; no per-token switching exists. -/
theorem gather_writer_dispatch (inp : GatherInputs) (r : CacheWriter × List Nat)
    (h : gatherConcatPastkvForPagedAttn inp = Except.ok r) :
    r.1 = (if inp.k_cache.m_dt = ElementType.u8 then CacheWriter.paged_attn_quantkv
           else CacheWriter.paged_attn_memcpy) := by
  rcases gather_ok_elim inp r h with ⟨-, -, h3, -, -⟩
  rw [h3]

/-- Witness for C3: a `u8` K-cache selects the quantized writer. -/
theorem gather_writer_dispatch_witness :
    ((CacheWriter.paged_attn_quantkv, ([1, 1, 1, 2] : List Nat)).1 =
      if (GatherInputs.mk (PlainTensor.mk ElementType.f32 [1, 1, 2])
            (PlainTensor.mk ElementType.f32 [1, 1, 2])
            (PlainTensor.mk ElementType.u8 [2, 1, 32, 10])
            (PlainTensor.mk ElementType.u8 [2, 1, 32, 10])
            (PlainTensor.mk ElementType.i32 [1, 5])).k_cache.m_dt = ElementType.u8 then
        CacheWriter.paged_attn_quantkv
      else CacheWriter.paged_attn_memcpy) :=
  gather_writer_dispatch _ _ rfl

/-- C5: when the new K or V tensor does not have the shape `[B, L1, H * S]`
demanded by the head count `H` (K-cache axis 1) and head dimension `S`
(V-cache last axis, minus 8 for a quantized cache), the population call fails
with a `ShapeError` before any writer runs; when the call does reach a
writer, the new K/V view it is handed is the reshape of `[B, L1, H * S]` into
`[B, L1, H, S]` permuted to `[B, H, L1, S]`. -/
theorem gather_shape_guard_and_reshape (inp : GatherInputs) :
    (¬(inp.k.m_dims = [gatherB inp, gatherL1 inp, gatherH inp * gatherS inp] ∧
        inp.v.m_dims = [gatherB inp, gatherL1 inp, gatherH inp * gatherS inp]) →
      ∃ m, gatherConcatPastkvForPagedAttn inp = Except.error (PAError.shapeError m)) ∧
    (∀ r, gatherConcatPastkvForPagedAttn inp = Except.ok r →
      r.2 = [gatherB inp, gatherH inp, gatherL1 inp, gatherS inp]) := by
  constructor
  · intro hne
    rcases gather_total inp with ⟨r, hr⟩ | hm
    · rcases gather_ok_elim inp r hr with ⟨h1, h2, -, -, -⟩
      exact absurd ⟨h1, h2⟩ hne
    · exact hm
  · intro r hr
    rcases gather_ok_elim inp r hr with ⟨-, -, h3, -, -⟩
    rw [h3]

/-- Witness for C5: a K tensor of last axis 3 against `H * S = 2` fails with
a `ShapeError`, and a successful call hands the writer a `[1, 1, 1, 2]`
view. -/
theorem gather_shape_guard_and_reshape_witness :
    (∃ m, gatherConcatPastkvForPagedAttn
        (GatherInputs.mk (PlainTensor.mk ElementType.f32 [1, 1, 3])
          (PlainTensor.mk ElementType.f32 [1, 1, 3])
          (PlainTensor.mk ElementType.f32 [2, 1, 32, 2])
          (PlainTensor.mk ElementType.f32 [2, 1, 32, 2])
          (PlainTensor.mk ElementType.i32 [1, 5])) =
        Except.error (PAError.shapeError m)) ∧
    ((CacheWriter.paged_attn_memcpy, ([1, 1, 1, 2] : List Nat)).2 =
      [gatherB (GatherInputs.mk (PlainTensor.mk ElementType.f32 [1, 1, 2])
          (PlainTensor.mk ElementType.f32 [1, 1, 2])
          (PlainTensor.mk ElementType.f32 [2, 1, 32, 2])
          (PlainTensor.mk ElementType.f32 [2, 1, 32, 2])
          (PlainTensor.mk ElementType.i32 [1, 5])),
        gatherH (GatherInputs.mk (PlainTensor.mk ElementType.f32 [1, 1, 2])
          (PlainTensor.mk ElementType.f32 [1, 1, 2])
          (PlainTensor.mk ElementType.f32 [2, 1, 32, 2])
          (PlainTensor.mk ElementType.f32 [2, 1, 32, 2])
          (PlainTensor.mk ElementType.i32 [1, 5])),
        gatherL1 (GatherInputs.mk (PlainTensor.mk ElementType.f32 [1, 1, 2])
          (PlainTensor.mk ElementType.f32 [1, 1, 2])
          (PlainTensor.mk ElementType.f32 [2, 1, 32, 2])
          (PlainTensor.mk ElementType.f32 [2, 1, 32, 2])
          (PlainTensor.mk ElementType.i32 [1, 5])),
        gatherS (GatherInputs.mk (PlainTensor.mk ElementType.f32 [1, 1, 2])
          (PlainTensor.mk ElementType.f32 [1, 1, 2])
          (PlainTensor.mk ElementType.f32 [2, 1, 32, 2])
          (PlainTensor.mk ElementType.f32 [2, 1, 32, 2])
          (PlainTensor.mk ElementType.i32 [1, 5]))]) :=
  ⟨(gather_shape_guard_and_reshape _).1 (by decide),
   (gather_shape_guard_and_reshape _).2 (CacheWriter.paged_attn_memcpy, [1, 1, 1, 2]) rfl⟩

/-- C6: every population call that reaches a writer has K-cache and V-cache
agreeing on `num_blocks` (axis 0), `num_heads` (axis 1) and `block_size`
(axis 2); a V-cache differing from the K-cache on any of those axes makes the
call fail with a `ShapeError`, so the invariant holds whenever the caches are
written. -/
theorem gather_cache_dims_invariant (inp : GatherInputs) :
    (∀ r, gatherConcatPastkvForPagedAttn inp = Except.ok r →
      inp.v_cache.size 0 = inp.k_cache.size 0 ∧
      inp.v_cache.size 1 = inp.k_cache.size 1 ∧
      inp.v_cache.size 2 = inp.k_cache.size 2) ∧
    (¬(inp.v_cache.size 0 = inp.k_cache.size 0 ∧
        inp.v_cache.size 1 = inp.k_cache.size 1 ∧
        inp.v_cache.size 2 = inp.k_cache.size 2) →
      ∃ m, gatherConcatPastkvForPagedAttn inp = Except.error (PAError.shapeError m)) := by
  have agree : ∀ r, gatherConcatPastkvForPagedAttn inp = Except.ok r →
      inp.v_cache.size 0 = inp.k_cache.size 0 ∧
      inp.v_cache.size 1 = inp.k_cache.size 1 ∧
      inp.v_cache.size 2 = inp.k_cache.size 2 := by
    intro r hr
    rcases gather_ok_elim inp r hr with ⟨-, -, -, -, h5⟩
    refine ⟨?_, ?_, ?_⟩ <;>
      simp [PlainTensor.size, h5, gatherH, List.getD_cons_succ, List.getD_cons_zero]
  refine ⟨agree, ?_⟩
  intro hne
  rcases gather_total inp with ⟨r, hr⟩ | hm
  · exact absurd (agree r hr) hne
  · exact hm

/-- Witness for C6: a successful call has agreeing cache axes, and a V-cache
with `num_blocks` 3 against a K-cache with `num_blocks` 2 fails with a
`ShapeError`. -/
theorem gather_cache_dims_invariant_witness :
    ((PlainTensor.mk ElementType.f32 [2, 1, 32, 2]).size 0 =
        (PlainTensor.mk ElementType.f32 [2, 1, 32, 2]).size 0 ∧
      (PlainTensor.mk ElementType.f32 [2, 1, 32, 2]).size 1 =
        (PlainTensor.mk ElementType.f32 [2, 1, 32, 2]).size 1 ∧
      (PlainTensor.mk ElementType.f32 [2, 1, 32, 2]).size 2 =
        (PlainTensor.mk ElementType.f32 [2, 1, 32, 2]).size 2) ∧
    (∃ m, gatherConcatPastkvForPagedAttn
        (GatherInputs.mk (PlainTensor.mk ElementType.f32 [1, 1, 2])
          (PlainTensor.mk ElementType.f32 [1, 1, 2])
          (PlainTensor.mk ElementType.f32 [2, 1, 32, 2])
          (PlainTensor.mk ElementType.f32 [3, 1, 32, 2])
          (PlainTensor.mk ElementType.i32 [1, 5])) =
        Except.error (PAError.shapeError m)) :=
  ⟨(gather_cache_dims_invariant
      (GatherInputs.mk (PlainTensor.mk ElementType.f32 [1, 1, 2])
        (PlainTensor.mk ElementType.f32 [1, 1, 2])
        (PlainTensor.mk ElementType.f32 [2, 1, 32, 2])
        (PlainTensor.mk ElementType.f32 [2, 1, 32, 2])
        (PlainTensor.mk ElementType.i32 [1, 5]))).1
      (CacheWriter.paged_attn_memcpy, [1, 1, 1, 2]) rfl,
   (gather_cache_dims_invariant _).2 (by decide)⟩

/-- C7 counterexample: the claim as stated fails on the code.  A successful
non-quantized population call exists whose K-cache last-axis extent is 5
while the head dimension `S` is 0: with `S = 0` the expected last-axis entry
of the wildcard check `k_cache.assert_dims({0, H, 0, S}, true)` is the
wildcard value 0, so the K-cache last axis is not constrained at all. -/
theorem gather_nonquant_last_axis_cex :
    gatherConcatPastkvForPagedAttn
      (GatherInputs.mk (PlainTensor.mk ElementType.f32 [1, 1, 0])
        (PlainTensor.mk ElementType.f32 [1, 1, 0])
        (PlainTensor.mk ElementType.f32 [1, 1, 1, 5])
        (PlainTensor.mk ElementType.f32 [1, 1, 1, 0])
        (PlainTensor.mk ElementType.i32 [1, 5])) =
      Except.ok (CacheWriter.paged_attn_memcpy, [1, 1, 1, 0]) ∧
    (PlainTensor.mk ElementType.f32 [1, 1, 1, 5]).m_dt ≠ ElementType.u8 ∧
    (PlainTensor.mk ElementType.f32 [1, 1, 1, 5]).size 3 = 5 ∧
    gatherS (GatherInputs.mk (PlainTensor.mk ElementType.f32 [1, 1, 0])
        (PlainTensor.mk ElementType.f32 [1, 1, 0])
        (PlainTensor.mk ElementType.f32 [1, 1, 1, 5])
        (PlainTensor.mk ElementType.f32 [1, 1, 1, 0])
        (PlainTensor.mk ElementType.i32 [1, 5])) = 0 :=
  ⟨rfl, by decide, rfl, rfl⟩

/-- C7 as amended: in every successful population call with a quantized (u8)
cache, the last-axis extent of both K-cache and V-cache equals `S + 8` where
`S` is the head dimension used for the new K/V tensors; with a non-quantized
cache the V-cache last-axis extent equals `S` by construction, and the
K-cache last-axis extent equals `S` whenever `S` is positive (for `S = 0` the
expected extent is the wildcard value and the K-cache last axis is
unconstrained). -/
theorem gather_last_axis_extent (inp : GatherInputs) (r : CacheWriter × List Nat)
    (h : gatherConcatPastkvForPagedAttn inp = Except.ok r) :
    (inp.k_cache.m_dt = ElementType.u8 →
      inp.k_cache.size 3 = gatherS inp + 8 ∧ inp.v_cache.size 3 = gatherS inp + 8) ∧
    (inp.k_cache.m_dt ≠ ElementType.u8 →
      inp.v_cache.size 3 = gatherS inp ∧
      (0 < gatherS inp → inp.k_cache.size 3 = gatherS inp)) := by
  rcases gather_ok_elim inp r h with ⟨-, -, -, h4, h5⟩
  constructor
  · intro hu8
    rw [if_pos hu8] at h4 h5
    constructor
    · rcases dimsMatch_wild4 _ _ _ _ _ h4 with ⟨a, b, c, d, hdims, -, -, -, h3d⟩
      rcases h3d with hd | hd
      · simp only [PlainTensor.size, hdims, List.getD_cons_succ, List.getD_cons_zero]
        exact hd.symm
      · omega
    · simp [PlainTensor.size, h5, List.getD_cons_succ, List.getD_cons_zero]
  · intro hnu8
    rw [if_neg hnu8, Nat.add_zero] at h4 h5
    constructor
    · simp [PlainTensor.size, h5, List.getD_cons_succ, List.getD_cons_zero]
    · intro hpos
      rcases dimsMatch_wild4 _ _ _ _ _ h4 with ⟨a, b, c, d, hdims, -, -, -, h3d⟩
      rcases h3d with hd | hd
      · simp only [PlainTensor.size, hdims, List.getD_cons_succ, List.getD_cons_zero]
        exact hd.symm
      · omega

/-- Witness for C7 (amended): a successful `u8` call with V-cache last axis
10 has `S = 2` and both cache last axes equal to `2 + 8`. -/
theorem gather_last_axis_extent_witness :
    (GatherInputs.mk (PlainTensor.mk ElementType.f32 [1, 1, 2])
        (PlainTensor.mk ElementType.f32 [1, 1, 2])
        (PlainTensor.mk ElementType.u8 [2, 1, 32, 10])
        (PlainTensor.mk ElementType.u8 [2, 1, 32, 10])
        (PlainTensor.mk ElementType.i32 [1, 5])).k_cache.size 3 =
      gatherS (GatherInputs.mk (PlainTensor.mk ElementType.f32 [1, 1, 2])
        (PlainTensor.mk ElementType.f32 [1, 1, 2])
        (PlainTensor.mk ElementType.u8 [2, 1, 32, 10])
        (PlainTensor.mk ElementType.u8 [2, 1, 32, 10])
        (PlainTensor.mk ElementType.i32 [1, 5])) + 8 ∧
    (GatherInputs.mk (PlainTensor.mk ElementType.f32 [1, 1, 2])
        (PlainTensor.mk ElementType.f32 [1, 1, 2])
        (PlainTensor.mk ElementType.u8 [2, 1, 32, 10])
        (PlainTensor.mk ElementType.u8 [2, 1, 32, 10])
        (PlainTensor.mk ElementType.i32 [1, 5])).v_cache.size 3 =
      gatherS (GatherInputs.mk (PlainTensor.mk ElementType.f32 [1, 1, 2])
        (PlainTensor.mk ElementType.f32 [1, 1, 2])
        (PlainTensor.mk ElementType.u8 [2, 1, 32, 10])
        (PlainTensor.mk ElementType.u8 [2, 1, 32, 10])
        (PlainTensor.mk ElementType.i32 [1, 5])) + 8 :=
  (gather_last_axis_extent
    (GatherInputs.mk (PlainTensor.mk ElementType.f32 [1, 1, 2])
      (PlainTensor.mk ElementType.f32 [1, 1, 2])
      (PlainTensor.mk ElementType.u8 [2, 1, 32, 10])
      (PlainTensor.mk ElementType.u8 [2, 1, 32, 10])
      (PlainTensor.mk ElementType.i32 [1, 5]))
    (CacheWriter.paged_attn_quantkv, [1, 1, 1, 2]) rfl).1 rfl

/-- Case analysis of `createPrimitive`: a hit in the params cache returns
the cached instance and leaves the cache unchanged; a miss runs the builder,
caching and returning a non-null result, and reports a null result as the
`PrecisionError`. -/
lemma createPrimitive_eq (cache : ParamsCache) (p kv : ElementType) (bf x86 : Bool)
    (mk : ElementType → ElementType → Option PagedAttentionExecutor) :
    createPrimitive cache p kv bf x86 mk =
      match List.find? (fun q => PagedAttentionKey.eq q.1
          (PagedAttentionKey.mk (getRuntimePrecision p bf))) cache with
      | some q => (cache, Except.ok q.2)
      | none =>
          match (if x86 = true then mk (getRuntimePrecision p bf) kv else none) with
          | some e =>
              ((PagedAttentionKey.mk (getRuntimePrecision p bf), e) :: cache,
                Except.ok e)
          | none =>
              (cache, Except.error (PAError.precisionError
                "PagedAttention AttentionExecutor creation fails")) := by
  cases hf : List.find? (fun q => PagedAttentionKey.eq q.1
      (PagedAttentionKey.mk (getRuntimePrecision p bf))) cache with
  | some q => simp [createPrimitive, getOrCreate, hf]
  | none =>
      cases hb : (if x86 = true then mk (getRuntimePrecision p bf) kv else none) with
      | some e => simp [createPrimitive, getOrCreate, hf, hb]
      | none => simp [createPrimitive, getOrCreate, hf, hb]

/-- C8: when executor construction yields no usable executor (the key is not
cached and the builder returns null, as on a non-x86-64 platform or an
unsupported precision combination), `createPrimitive` fails with an error;
and whenever it stores an executor in `m_executor` (the `ok` payload), that
executor came from the cache or from a successful build, never from a null
builder result. -/
theorem createPrimitive_no_null_executor (cache : ParamsCache)
    (p kv : ElementType) (bf x86 : Bool)
    (mk : ElementType → ElementType → Option PagedAttentionExecutor) :
    (List.find? (fun q => PagedAttentionKey.eq q.1
        (PagedAttentionKey.mk (getRuntimePrecision p bf))) cache = none →
      (x86 = false ∨ mk (getRuntimePrecision p bf) kv = none) →
      ∃ m, (createPrimitive cache p kv bf x86 mk).2 =
        Except.error (PAError.precisionError m)) ∧
    (∀ e, (createPrimitive cache p kv bf x86 mk).2 = Except.ok e →
      (∃ q, List.find? (fun q2 => PagedAttentionKey.eq q2.1
          (PagedAttentionKey.mk (getRuntimePrecision p bf))) cache = some q ∧ q.2 = e) ∨
      (x86 = true ∧ mk (getRuntimePrecision p bf) kv = some e)) := by
  constructor
  · intro hf hb
    have hbn : (if x86 = true then mk (getRuntimePrecision p bf) kv else none)
        = (none : Option PagedAttentionExecutor) := by
      rcases hb with hb | hb
      · rw [hb]
        simp
      · rcases Bool.eq_false_or_eq_true x86 with hx | hx
        · rw [hx, if_pos rfl]
          exact hb
        · rw [hx]
          simp
    rw [createPrimitive_eq, hf, hbn]
    exact ⟨_, rfl⟩
  · intro e he
    rw [createPrimitive_eq] at he
    cases hf : List.find? (fun q => PagedAttentionKey.eq q.1
        (PagedAttentionKey.mk (getRuntimePrecision p bf))) cache with
    | some q =>
        rw [hf] at he
        have h2 : (Except.ok q.2 : Except PAError PagedAttentionExecutor)
            = Except.ok e := he
        injection h2 with h3
        exact Or.inl ⟨q, rfl, h3⟩
    | none =>
        rw [hf] at he
        cases hbv : (if x86 = true then mk (getRuntimePrecision p bf) kv else none) with
        | none =>
            rw [hbv] at he
            exact absurd (show (Except.error (PAError.precisionError
                "PagedAttention AttentionExecutor creation fails") :
                  Except PAError PagedAttentionExecutor) = Except.ok e from he)
              (by simp)
        | some ex =>
            rw [hbv] at he
            have h2 : (Except.ok ex : Except PAError PagedAttentionExecutor)
                = Except.ok e := he
            injection h2 with h3
            subst h3
            rcases Bool.eq_false_or_eq_true x86 with hx | hx
            · rw [hx, if_pos rfl] at hbv
              exact Or.inr ⟨hx, hbv⟩
            · rw [hx] at hbv
              exact Option.noConfusion
                (show (none : Option PagedAttentionExecutor) = some ex from hbv)

/-- Witness for C8: on a non-x86-64 platform the builder yields null and
`createPrimitive` fails with a `PrecisionError`. -/
theorem createPrimitive_no_null_executor_witness :
    ∃ m, (createPrimitive [] ElementType.f32 ElementType.f32 false false
        (fun _ _ => none)).2 = Except.error (PAError.precisionError m) :=
  (createPrimitive_no_null_executor [] ElementType.f32 ElementType.f32 false false
      (fun _ _ => none)).1 rfl (Or.inl rfl)

/-- C9: the executor cache key compares equal exactly when the runtime
precisions are equal, equal keys have equal hashes, and consequently a second
`createPrimitive` with the same runtime precision — even with a different
KV-cache precision — obtains the very executor instance stored by the
first. -/
theorem executor_cache_key_and_sharing :
    (∀ a b : PagedAttentionKey, PagedAttentionKey.eq a b = true ↔
      a.rtPrecision = b.rtPrecision) ∧
    (∀ a b : PagedAttentionKey, PagedAttentionKey.eq a b = true →
      PagedAttentionKey.hash a = PagedAttentionKey.hash b) ∧
    (∀ (cache : ParamsCache) (p kv1 kv2 : ElementType) (bf x86 : Bool)
      (mk : ElementType → ElementType → Option PagedAttentionExecutor)
      (e : PagedAttentionExecutor),
      (createPrimitive cache p kv1 bf x86 mk).2 = Except.ok e →
      (createPrimitive (createPrimitive cache p kv1 bf x86 mk).1 p kv2 bf x86 mk).2 =
        Except.ok e) := by
  refine ⟨?_, ?_, ?_⟩
  · intro a b
    simp [PagedAttentionKey.eq]
  · intro a b hab
    have hr : a.rtPrecision = b.rtPrecision := by
      simpa [PagedAttentionKey.eq] using hab
    unfold PagedAttentionKey.hash
    rw [hr]
  · intro cache p kv1 kv2 bf x86 mk e h1
    rw [createPrimitive_eq] at h1
    cases hf : List.find? (fun q => PagedAttentionKey.eq q.1
        (PagedAttentionKey.mk (getRuntimePrecision p bf))) cache with
    | some q =>
        rw [hf] at h1
        have h2 : (Except.ok q.2 : Except PAError PagedAttentionExecutor)
            = Except.ok e := h1
        injection h2 with h3
        have hc1 : (createPrimitive cache p kv1 bf x86 mk).1 = cache := by
          rw [createPrimitive_eq, hf]
        rw [hc1, createPrimitive_eq, hf]
        exact congrArg Except.ok h3
    | none =>
        rw [hf] at h1
        cases hbv : (if x86 = true then mk (getRuntimePrecision p bf) kv1 else none) with
        | none =>
            rw [hbv] at h1
            exact absurd (show (Except.error (PAError.precisionError
                "PagedAttention AttentionExecutor creation fails") :
                  Except PAError PagedAttentionExecutor) = Except.ok e from h1)
              (by simp)
        | some ex =>
            rw [hbv] at h1
            have h2 : (Except.ok ex : Except PAError PagedAttentionExecutor)
                = Except.ok e := h1
            injection h2 with h3
            subst h3
            have hc1 : (createPrimitive cache p kv1 bf x86 mk).1 =
                (PagedAttentionKey.mk (getRuntimePrecision p bf), ex) :: cache := by
              rw [createPrimitive_eq, hf, hbv]
            rw [hc1, createPrimitive_eq, List.find?_cons_of_pos]
            simp [PagedAttentionKey.eq]

/-- Witness for C9: two calls sharing runtime precision `f32` but with
different KV-cache precisions (`u8` then `f32`) return the same shared
instance, the one built by the first call. -/
theorem executor_cache_key_and_sharing_witness :
    (createPrimitive
        (createPrimitive [] ElementType.f32 ElementType.u8 false true
          (fun r k => some (PagedAttentionExecutor.mk r k))).1
        ElementType.f32 ElementType.f32 false true
        (fun r k => some (PagedAttentionExecutor.mk r k))).2 =
      Except.ok (PagedAttentionExecutor.mk ElementType.f32 ElementType.u8) :=
  executor_cache_key_and_sharing.2.2 [] ElementType.f32 ElementType.u8 ElementType.f32
    false true (fun r k => some (PagedAttentionExecutor.mk r k))
    (PagedAttentionExecutor.mk ElementType.f32 ElementType.u8) rfl

end PagedAttn
